import Mathlib

/-!
Shallow embedding of the Celestia DA fraud-challenge verification core
(`crates/toolkit` and `crates/methods/guest/src/bin/da_challenge_guest.rs`).

Machine integers are modelled as `Nat` with explicit reduction modulo `2 ^ 32`
where the source performs `u32` arithmetic (`as u32` casts and `u32`
multiplication compiled without overflow checks); `u32::checked_add` is
modelled by an explicit bound test.  External crates (risc0-steel EVM view
calls, celestia-types Merkle/share verification, `Blob::reconstruct`,
`bincode::deserialize`) are not part of this repository; their observable
outcomes are supplied through the `World` record of oracles, and the guest's
aborts (`panic!`, `expect`, `assert_eq!`, `BTreeMap` indexing misses, reverted
EVM view calls) are an explicit `panic` outcome.
-/

namespace DaChallenge

/-- The constant `2 ^ 32`, the modulus of `u32` arithmetic. -/
def U32 : Nat := 2 ^ 32

/-- Source `toolkit/src/lib.rs`: `SpanSequence { height: u64, start: u32, size: u32 }`,
a contiguous run of `size` shares of block `height` starting at ODS index
`start`. -/
structure SpanSequence where
  height : Nat
  start : Nat
  size : Nat
deriving DecidableEq

/-- Source `toolkit/src/errors.rs`: `enum DaFraud` — errors that imply DA fraud.
The payloads of the two reconstruction variants abstract the external
`celestia_types::Error` and `bincode::Error` values as `Nat` codes. -/
inductive DaFraud where
  | FailedIndexBlobReconstruction (e : Nat)
  | FailedIndexBlobDeserialization (e : Nat)
  | ShareIndexOutOfBounds (share_index ods_size : Nat)
  | BlockHeightTooLow (block_height min_block_height : Nat)
  | BlockHeightTooHigh (block_height max_block_height : Nat)
  | SpanSequenceOverflow (s : SpanSequence)
  | EmptySpanSequence (s : SpanSequence)
deriving DecidableEq

/-- Source `toolkit/src/errors.rs`: `enum InputError` — errors in the inputs passed to
the guest program; must never lead to a valid proof. -/
inductive InputError where
  | InvalidNumberOfLeavesInProof
  | ChallengedBlobNotInIndex
  | MissingIndexBlobData
  | InvalidFirstBlobstreamAttestationNonce
  | InvalidFirstBlobstreamAttestationIndex
deriving DecidableEq

/-- Source `toolkit/src/errors.rs`: `enum DaGuestError = Input | Fraud`. -/
inductive DaGuestError where
  | Input (e : InputError)
  | Fraud (e : DaFraud)
deriving DecidableEq

/-- External `celestia_types::MerkleProof` as the guest consumes it: leaf count
`total : u64`, leaf position `index : u64`, and the side nodes (abstracted). -/
structure MerkleProof where
  total : Nat
  index : Nat
  sideNodes : List Nat
deriving DecidableEq

/-- Source `toolkit/src/lib.rs`: `SpanSequence::end_index_ods` — rejects `size == 0`
(`EmptySpanSequence`), then `start.checked_add(size)` which fails with
`SpanSequenceOverflow` exactly when the `u32` sum exceeds `u32::MAX`,
i.e. when `2 ^ 32 ≤ start + size`. -/
def SpanSequence.end_index_ods (s : SpanSequence) : Except DaFraud Nat :=
  if s.size = 0 then
    .error (.EmptySpanSequence s)
  else if U32 ≤ s.start + s.size then
    .error (.SpanSequenceOverflow s)
  else
    .ok (s.start + s.size)

/-- Source `toolkit/src/errors.rs`: `compute_ods_width_from_row_proof` — `total` must
be divisible by 4; the width is `row_proof.total / 4` cast `as u32`. -/
def compute_ods_width_from_row_proof (rp : MerkleProof) : Except DaGuestError Nat :=
  if rp.total % 4 ≠ 0 then
    .error (.Input .InvalidNumberOfLeavesInProof)
  else
    .ok ((rp.total / 4) % U32)

/-- The `u32` value `ods_width * ods_width` computed by
`verify_span_sequence_inclusion` for a row proof with leaf count `total`
divisible by 4 (the product wraps modulo `2 ^ 32`). -/
def ods_size_u32 (total : Nat) : Nat :=
  (((total / 4) % U32) * ((total / 4) % U32)) % U32

/-- Source `da_challenge_guest.rs`: `verify_span_sequence_inclusion` — derives the ODS
width from the row proof, squares it (in `u32`), and reports
`ShareIndexOutOfBounds` when `end_index_ods` exceeds it, propagating the
errors of `compute_ods_width_from_row_proof` and `end_index_ods`. -/
def verify_span_sequence_inclusion (s : SpanSequence) (rp : MerkleProof) :
    Except DaGuestError Unit :=
  match compute_ods_width_from_row_proof rp with
  | .error e => .error e
  | .ok ods_width =>
    let ods_size := (ods_width * ods_width) % U32
    match s.end_index_ods with
    | .error f => .error (.Fraud f)
    | .ok last_share_index =>
      if last_share_index > ods_size then
        .error (.Fraud (.ShareIndexOutOfBounds last_share_index ods_size))
      else
        .ok ()

/-- Source `toolkit/src/lib.rs`: `BlobstreamAttestation { data_root, height, nonce,
proof }`; the 32-byte data root is abstracted as a `Nat`. -/
structure BlobstreamAttestation where
  data_root : Nat
  height : Nat
  nonce : Nat
  proof : MerkleProof
deriving DecidableEq

/-- External `celestia_types::ShareProof` as the guest reads it:
`row_proof.proofs[0].total`, `row_proof.proofs[0].index`, the first namespace
proof's `start_idx()`, and the raw shares it carries (abstracted as `Nat`s). -/
structure ShareProof where
  rowProofTotal : Nat
  rowProofIndex : Nat
  colStart : Nat
  shares : List Nat
deriving DecidableEq

/-- Source `toolkit/src/lib.rs`: `share_proof_start_index_ods` — `row_size = (total as
u32) / 4`, `row_index = index as u32`, result `row_index * row_size +
col_index` in wrapping `u32` arithmetic. -/
def share_proof_start_index_ods (sp : ShareProof) : Nat :=
  let row_size := (sp.rowProofTotal % U32) / 4
  let row_index := sp.rowProofIndex % U32
  (row_index * row_size + sp.colStart) % U32

/-- Source `toolkit/src/lib.rs`: `BlobProofData { share_proofs: BTreeMap<u32,
ShareProof>, app_version: u64 }`; the map is modelled as an association
list. -/
structure BlobProofData where
  share_proofs : List (Nat × ShareProof)
  app_version : Nat
deriving DecidableEq

/-- Method `BlobProofData::shares()` — flat-maps the shares of every share proof, in
map order. -/
def BlobProofData.shares (pd : BlobProofData) : List Nat :=
  (pd.share_proofs.map fun kv => kv.2.shares).flatten

/-- The `BTreeMap` lookup `share_proofs[&share_index]` (the guest's indexing panics
on `none`; that panic is made explicit at the use sites). -/
def lookupShare (pd : BlobProofData) (i : Nat) : Option ShareProof :=
  (pd.share_proofs.find? fun kv => kv.1 == i).map fun kv => kv.2

/-- Source `toolkit/src/lib.rs`: `BlobstreamAttestationAndRowProof`. -/
structure BlockProof where
  blobstream_attestation : BlobstreamAttestation
  row_proof : MerkleProof
  row_root_node : Nat
deriving DecidableEq

/-- Source `toolkit/src/lib.rs`: `BlobIndex { blobs: Vec<SpanSequence> }`. -/
structure BlobIndex where
  blobs : List SpanSequence
deriving DecidableEq

/-- Source `toolkit/src/lib.rs`: `DaChallengeGuestData`, the challenge bundle handed
to the guest (already deserialized from its bincode frame). -/
structure DaChallengeGuestData where
  index_blob : SpanSequence
  challenged_blob : SpanSequence
  index_blob_proof_data : Option BlobProofData
  block_proofs : List (Nat × BlockProof)
  first_blobstream_attestation : BlobstreamAttestation
deriving DecidableEq

/-- The `BTreeMap` lookup `block_proofs[&height]`. -/
def lookupBlockProof (bps : List (Nat × BlockProof)) (h : Nat) : Option BlockProof :=
  (bps.find? fun kv => kv.1 == h).map fun kv => kv.2

/-- The external environment of the guest: the committed EVM state of the
Blobstream contract (attestation view calls and `latestHeight()`) and the
celestia-types / bincode primitives, none of which are code of this
repository.  Each oracle reports the observable outcome of one external
call. -/
structure World where
  /-- `IDAOracle::verifyAttestation` view call succeeds (a revert aborts the
  guest). -/
  attestationValid : BlobstreamAttestation → Bool
  /-- `Blobstream0::latestHeight()`. -/
  latestHeight : Nat
  /-- `MerkleProof::verify(serialized row root node, data_root)` succeeds. -/
  rowProofValid : MerkleProof → Nat → Nat → Bool
  /-- `ShareProof::verify(Hash::Sha256(data_root))` succeeds. -/
  shareProofValid : ShareProof → Nat → Bool
  /-- `AppVersion::from_u64` is `Some`. -/
  appVersionValid : Nat → Bool
  /-- `Blob::reconstruct(shares, app_version)`, yielding the blob's data. -/
  blobReconstruct : List Nat → Nat → Except Nat (List Nat)
  /-- `bincode::deserialize::<BlobIndex>(blob.data)`. -/
  deserializeIndex : List Nat → Except Nat BlobIndex

/-- Outcome of a guest computation: a returned value, a returned
`DaGuestError`, or an abort of the whole guest (`panic!` / failed `expect` /
failed `assert_eq!` / `BTreeMap` index miss / reverted EVM call). -/
inductive GuestOutcome (α : Type) where
  | ok (a : α)
  | err (e : DaGuestError)
  | panic
deriving DecidableEq

/-- Lifts the `Result` of a pure check into a guest outcome. -/
def ofExcept : Except DaGuestError Unit → GuestOutcome Unit
  | .ok a => .ok a
  | .error e => .err e

/-- Source `toolkit/src/lib.rs`: `BlobIndex::reconstruct_from_raw` — reconstructs the
blob from raw shares, then bincode-deserializes its data; each failure maps to
its own `DaFraud` variant.  (`Share::from_raw(...).expect` cannot fire: the
input shares are exactly `SHARE_SIZE` bytes by type.) -/
def BlobIndex.reconstruct_from_raw (w : World) (raw_shares : List Nat)
    (app_version : Nat) : Except DaFraud BlobIndex :=
  match w.blobReconstruct raw_shares app_version with
  | .error e => .error (.FailedIndexBlobReconstruction e)
  | .ok data =>
    match w.deserializeIndex data with
    | .error e => .error (.FailedIndexBlobDeserialization e)
    | .ok idx => .ok idx

/-- Source `da_challenge_guest.rs`: `check_block_height_bounds` — input errors for a
first attestation with `nonce != 1` or Merkle `proof.index != 0`; then the
attestation is verified on-chain (revert aborts); then the span height is
checked against `[first.height, latestHeight]`.  NOTE: faithful to the source,
the `height > max` branch constructs `DaFraud::BlockHeightTooLow` carrying
`min_block_height` (lines 147–154), not `BlockHeightTooHigh`. -/
def check_block_height_bounds (w : World) (span : SpanSequence)
    (first : BlobstreamAttestation) : GuestOutcome Unit :=
  if first.nonce ≠ 1 then
    .err (.Input .InvalidFirstBlobstreamAttestationNonce)
  else if first.proof.index ≠ 0 then
    .err (.Input .InvalidFirstBlobstreamAttestationIndex)
  else if ¬ w.attestationValid first then
    .panic
  else if span.height < first.height then
    .err (.Fraud (.BlockHeightTooLow span.height first.height))
  else if span.height > w.latestHeight then
    .err (.Fraud (.BlockHeightTooLow span.height first.height))
  else
    .ok ()

/-- Source `da_challenge_guest.rs` lines 175–181: the authenticity loop over
`block_proofs` — `assert_eq!(height, attestation.height)`, then
`verify_blobstream_attestation_and_row_proof` (attestation view call plus row
proof against the data root); every failure aborts the guest. -/
def verify_block_proofs (w : World) : List (Nat × BlockProof) → GuestOutcome Unit
  | [] => .ok ()
  | (h, bp) :: rest =>
    if h ≠ bp.blobstream_attestation.height then
      .panic
    else if ¬ w.attestationValid bp.blobstream_attestation then
      .panic
    else if ¬ w.rowProofValid bp.row_proof bp.row_root_node
        bp.blobstream_attestation.data_root then
      .panic
    else
      verify_block_proofs w rest

/-- The `for share_index in start..end` loop of `verify_share_proofs`,
with `n` remaining iterations starting at index `i`: map lookup (miss aborts),
`ShareProof::verify` (`expect` aborts), and
`assert_eq!(share_proof_start_index_ods(..), share_index)` (aborts). -/
def verify_shares_loop (w : World) (att : BlobstreamAttestation)
    (pd : BlobProofData) : Nat → Nat → GuestOutcome Unit
  | _, 0 => .ok ()
  | i, Nat.succ n =>
    match lookupShare pd i with
    | none => .panic
    | some sp =>
      if w.shareProofValid sp att.data_root then
        if share_proof_start_index_ods sp = i then
          verify_shares_loop w att pd (i + 1) n
        else
          .panic
      else
        .panic

/-- Source `da_challenge_guest.rs`: `verify_share_proofs` — propagates the
`end_index_ods` errors, then runs the per-share loop over
`[span.start, span_sequence_end)`. -/
def verify_share_proofs (w : World) (span : SpanSequence)
    (att : BlobstreamAttestation) (pd : BlobProofData) : GuestOutcome Unit :=
  match span.end_index_ods with
  | .error f => .err (.Fraud f)
  | .ok span_sequence_end =>
    verify_shares_loop w att pd span.start (span_sequence_end - span.start)

/-- The exclusion step shared by the two challenge paths:
`check_block_height_bounds(boundsSpan, ..)?` then
`verify_span_sequence_inclusion(&inclSpan, &block_proofs[&inclSpan.height].row_proof)`
(the `BTreeMap` index miss aborts the guest). -/
def check_blob_exclusion (w : World) (first : BlobstreamAttestation)
    (bps : List (Nat × BlockProof)) (boundsSpan inclSpan : SpanSequence) :
    GuestOutcome Unit :=
  match check_block_height_bounds w boundsSpan first with
  | .ok _ =>
    match lookupBlockProof bps inclSpan.height with
    | none => .panic
    | some bp => ofExcept (verify_span_sequence_inclusion inclSpan bp.row_proof)
  | r => r

/-- Source `da_challenge_guest.rs` lines 212–224: the linear scan of `index.blobs`
for an entry structurally equal to the challenged blob; bounds are checked on
`challenged_blob` and inclusion on the matching entry; an exhausted scan is
the `ChallengedBlobNotInIndex` input error. -/
def scan_index_blobs (w : World) (first : BlobstreamAttestation)
    (bps : List (Nat × BlockProof)) (challenged : SpanSequence) :
    List SpanSequence → GuestOutcome Unit
  | [] => .err (.Input .ChallengedBlobNotInIndex)
  | b :: rest =>
    if challenged = b then
      check_blob_exclusion w first bps challenged b
    else
      scan_index_blobs w first bps challenged rest

/-- Source `da_challenge_guest.rs`: `check_da_challenge` on an already-deserialized
bundle: authenticate all block proofs; if `challenged_blob == index_blob`,
run the exclusion step on the index blob; otherwise require the index blob
data, verify its share proofs, reconstruct the index
(`AppVersion::from_u64(..).expect` aborts on an invalid version), and scan its
blobs. -/
def check_da_challenge (w : World) (d : DaChallengeGuestData) : GuestOutcome Unit :=
  match verify_block_proofs w d.block_proofs with
  | .ok _ =>
    if d.challenged_blob = d.index_blob then
      check_blob_exclusion w d.first_blobstream_attestation d.block_proofs
        d.index_blob d.index_blob
    else
      match d.index_blob_proof_data with
      | none => .err (.Input .MissingIndexBlobData)
      | some ibd =>
        match lookupBlockProof d.block_proofs d.index_blob.height with
        | none => .panic
        | some bp =>
          match verify_share_proofs w d.index_blob bp.blobstream_attestation ibd with
          | .ok _ =>
            if w.appVersionValid ibd.app_version then
              match BlobIndex.reconstruct_from_raw w ibd.shares ibd.app_version with
              | .error f => .err (.Fraud f)
              | .ok idx =>
                scan_index_blobs w d.first_blobstream_attestation d.block_proofs
                  d.challenged_blob idx.blobs
            else
              .panic
          | r => r
  | r => r

/-- The journal value `main` actually constructs (lines 250–253): only the
Steel commitment and the Blobstream address — the `indexBlob` field required
by `toolkit::journal::Journal` is absent from the struct literal.  The
commitment and address are abstracted as `Nat`s. -/
structure GuestJournal where
  commitment : Nat
  blobstreamAddress : Nat
deriving DecidableEq

/-- Source `toolkit/src/journal.rs`: the ABI journal type `Journal { commitment,
blobstreamAddress, indexBlob }`. -/
structure Journal where
  commitment : Nat
  blobstreamAddress : Nat
  indexBlob : SpanSequence
deriving DecidableEq

/-- The ABI components of a `toolkit::journal::Journal` value, in field
order (the span contributing its three members). -/
def Journal.abiFields (j : Journal) : List Nat :=
  [j.commitment, j.blobstreamAddress, j.indexBlob.height, j.indexBlob.start,
    j.indexBlob.size]

/-- The ABI components of the journal value `main` constructs. -/
def GuestJournal.abiFields (j : GuestJournal) : List Nat :=
  [j.commitment, j.blobstreamAddress]

/-- Observable outcome of the guest's `main`: an abort, or a committed
journal. -/
inductive MainOutcome where
  | panicked
  | committed (j : GuestJournal)
deriving DecidableEq

/-- Source `da_challenge_guest.rs` lines 241–254: the `match` in `main` —
`Ok(())` panics ("blob is available"), an `Input` error panics ("invalid
input"), and only a `Fraud` error falls through to `env::commit_slice` of the
journal.  A panic inside `check_da_challenge` itself also aborts before any
commit. -/
def main_dispatch (r : GuestOutcome Unit) (commitment blobstreamAddress : Nat) :
    MainOutcome :=
  match r with
  | .ok _ => .panicked
  | .err (.Input _) => .panicked
  | .err (.Fraud _) => .committed ⟨commitment, blobstreamAddress⟩
  | .panic => .panicked

/-- Function `main`, composed from `check_da_challenge` and the dispatch above. -/
def guest_main (w : World) (d : DaChallengeGuestData)
    (commitment blobstreamAddress : Nat) : MainOutcome :=
  main_dispatch (check_da_challenge w d) commitment blobstreamAddress

/-- Modelled from the spec: the spec's (and claim C3's) unreduced value
`ods_size = ods_width²` with `ods_width = row_proof.total / 4`, stated as pure
arithmetic with no `u32` reduction — to be compared with the `u32` value the
source computes. -/
def spec_ods_size (total : Nat) : Nat :=
  (total / 4) * (total / 4)

/-! Concrete fixtures, used by counterexamples and witnesses. -/

/-- A world in which every external verification succeeds, the bridge head is
at height 5, and the index blob deserializes to an empty index. -/
def w1 : World where
  attestationValid := fun _ => true
  latestHeight := 5
  rowProofValid := fun _ _ _ => true
  shareProofValid := fun _ _ => true
  appVersionValid := fun _ => true
  blobReconstruct := fun _ _ => .ok []
  deserializeIndex := fun _ => .ok ⟨[]⟩

/-- Like `w1`, but the index deserializes to a one-entry index listing the
span `(4, 0, 1)`. -/
def w2 : World :=
  { w1 with deserializeIndex := fun _ => .ok ⟨[⟨4, 0, 1⟩]⟩ }

/-- Like `w1`, but `Blob::reconstruct` fails with code 0. -/
def w3 : World :=
  { w1 with blobReconstruct := fun _ _ => .error 0 }

/-- Like `w1`, but `bincode::deserialize` of the index fails with code 2. -/
def w4 : World :=
  { w1 with deserializeIndex := fun _ => .error 2 }

/-- A valid first Blobstream attestation: nonce 1, proof index 0, height 1. -/
def first1 : BlobstreamAttestation where
  data_root := 0
  height := 1
  nonce := 1
  proof := { total := 4, index := 0, sideNodes := [] }

/-- A share proof whose declared ODS start index is 0. -/
def sp0 : ShareProof where
  rowProofTotal := 4
  rowProofIndex := 0
  colStart := 0
  shares := [7]

/-- A block proof for Celestia height 3. -/
def bp5 : BlockProof where
  blobstream_attestation :=
    { data_root := 0, height := 3, nonce := 2
      proof := { total := 4, index := 1, sideNodes := [] } }
  row_proof := { total := 16, index := 0, sideNodes := [] }
  row_root_node := 0

/-- Index-blob proof data covering ODS index 0 with `sp0`. -/
def ibd5 : BlobProofData where
  share_proofs := [(0, sp0)]
  app_version := 1

/-- A bundle challenging the span `(4, 0, 1)` against the index blob
`(3, 0, 1)`, with an authentic block proof for height 3. -/
def d5 : DaChallengeGuestData where
  index_blob := ⟨3, 0, 1⟩
  challenged_blob := ⟨4, 0, 1⟩
  index_blob_proof_data := some ibd5
  block_proofs := [(3, bp5)]
  first_blobstream_attestation := first1

/-- A self-challenge bundle for the span `(3, 0, 1)` carrying no block proof
for height 3. -/
def d9 : DaChallengeGuestData where
  index_blob := ⟨3, 0, 1⟩
  challenged_blob := ⟨3, 0, 1⟩
  index_blob_proof_data := none
  block_proofs := []
  first_blobstream_attestation := first1

end DaChallenge

namespace DaChallenge

/-! Helper lemmas shared by several claim proofs. -/

/-- Inversion for a successful `end_index_ods`: the returned index is
`start + size` and the span is non-empty. -/
lemma end_index_ods_ok_bounds {s : SpanSequence} {e : Nat}
    (h : s.end_index_ods = .ok e) : e = s.start + s.size ∧ s.size ≠ 0 := by
  unfold SpanSequence.end_index_ods at h
  by_cases h0 : s.size = 0
  · rw [if_pos h0] at h; cases h
  · rw [if_neg h0] at h
    by_cases hov : U32 ≤ s.start + s.size
    · rw [if_pos hov] at h; cases h
    · rw [if_neg hov] at h
      injection h with h
      exact ⟨h.symm, h0⟩

/-- The per-share loop returns `ok` exactly when every index it visits has a
present, verifying share proof whose declared ODS start index matches. -/
lemma verify_shares_loop_ok_iff (w : World) (att : BlobstreamAttestation)
    (pd : BlobProofData) :
    ∀ (n j : Nat),
      verify_shares_loop w att pd j n = .ok () ↔
        ∀ i, j ≤ i → i < j + n →
          ∃ sp, lookupShare pd i = some sp ∧
            w.shareProofValid sp att.data_root = true ∧
            share_proof_start_index_ods sp = i := by
  intro n
  induction n with
  | zero =>
    intro j
    constructor
    · intro _ i hji hlt
      exact absurd hlt (by omega)
    · intro _
      rfl
  | succ n ih =>
    intro j
    simp only [verify_shares_loop]
    cases hlk : lookupShare pd j with
    | none =>
      constructor
      · intro h; cases h
      · intro h
        obtain ⟨sp, hsp, -, -⟩ := h j (Nat.le_refl j) (by omega)
        rw [hlk] at hsp
        cases hsp
    | some sp =>
      dsimp only
      by_cases hv : w.shareProofValid sp att.data_root
      · rw [if_pos hv]
        by_cases hix : share_proof_start_index_ods sp = j
        · rw [if_pos hix, ih (j + 1)]
          constructor
          · intro h i hji hlt
            rcases Nat.eq_or_lt_of_le hji with heq | hlt'
            · subst heq
              exact ⟨sp, hlk, hv, hix⟩
            · exact h i hlt' (by omega)
          · intro h i h1 h2
            exact h i (by omega) (by omega)
        · rw [if_neg hix]
          constructor
          · intro h; cases h
          · intro h
            obtain ⟨sp', hsp', -, hix'⟩ := h j (Nat.le_refl j) (by omega)
            rw [hlk] at hsp'
            injection hsp' with hsp'
            subst hsp'
            exact absurd hix' hix
      · rw [if_neg hv]
        constructor
        · intro h; cases h
        · intro h
          obtain ⟨sp', hsp', hv', -⟩ := h j (Nat.le_refl j) (by omega)
          rw [hlk] at hsp'
          injection hsp' with hsp'
          subst hsp'
          exact absurd hv' hv

/-- The per-share loop never returns a `DaGuestError`: it either succeeds or
aborts the guest. -/
lemma verify_shares_loop_ok_or_panic (w : World) (att : BlobstreamAttestation)
    (pd : BlobProofData) :
    ∀ (n j : Nat),
      verify_shares_loop w att pd j n = .ok () ∨
        verify_shares_loop w att pd j n = .panic := by
  intro n
  induction n with
  | zero =>
    intro j
    exact Or.inl rfl
  | succ n ih =>
    intro j
    simp only [verify_shares_loop]
    cases lookupShare pd j with
    | none => exact Or.inr rfl
    | some sp =>
      dsimp only
      by_cases hv : w.shareProofValid sp att.data_root
      · rw [if_pos hv]
        by_cases hix : share_proof_start_index_ods sp = j
        · rw [if_pos hix]
          exact ih (j + 1)
        · rw [if_neg hix]
          exact Or.inr rfl
      · rw [if_neg hv]
        exact Or.inr rfl

/-! The claim theorems. -/

/-- C1 (code-bug evidence): with a valid first attestation anchoring minimum
height 1, bridge head height 5, and a span at height 10 — strictly above the
upper bound — `check_block_height_bounds` returns the fraud outcome
`BlockHeightTooLow 10 1` (the below-lower-bound variant, filled with the
minimum bound), not the `BlockHeightTooHigh` outcome the claim (and the
`DaFraud` enum's own dedicated variant) prescribe for this case. -/
theorem C1_above_upper_bound_yields_too_low_variant :
    check_block_height_bounds w1 ⟨10, 0, 1⟩ first1
      = .err (.Fraud (.BlockHeightTooLow 10 1)) := by
  rfl

/-- C2: `main` commits a journal exactly when `check_da_challenge` returns a
fraud outcome; the availability path (`Ok(())`) and the input-error path both
abort the guest without committing, so no proof can finalize from them. -/
theorem C2_journal_committed_only_on_fraud :
    ∀ (r : GuestOutcome Unit) (c a : Nat) (w : World) (d : DaChallengeGuestData),
      main_dispatch (.ok ()) c a = .panicked ∧
      (∀ e, main_dispatch (.err (.Input e)) c a = .panicked) ∧
      ((∃ j, main_dispatch r c a = .committed j) ↔
        ∃ f, r = .err (.Fraud f)) ∧
      guest_main w d c a = main_dispatch (check_da_challenge w d) c a := by
  intro r c a w d
  refine ⟨rfl, fun e => rfl, ?_, rfl⟩
  constructor
  · intro ⟨j, hj⟩
    cases r with
    | ok u => exact absurd hj (by simp [main_dispatch])
    | err e =>
      cases e with
      | Input e => exact absurd hj (by simp [main_dispatch])
      | Fraud f => exact ⟨f, rfl⟩
    | panic => exact absurd hj (by simp [main_dispatch])
  · intro ⟨f, hf⟩
    subst hf
    exact ⟨⟨c, a⟩, rfl⟩

/-- C6: `end_index_ods` returns the empty-span error when `size = 0`, the
explicit overflow error when `size > 0` but `start + size` exceeds `u32`
range, and `Ok (start + size)` otherwise. -/
theorem C6_end_index_ods_spec :
    ∀ s : SpanSequence, s.start < U32 → s.size < U32 →
      (s.size = 0 → s.end_index_ods = .error (.EmptySpanSequence s)) ∧
      (0 < s.size → U32 ≤ s.start + s.size →
        s.end_index_ods = .error (.SpanSequenceOverflow s)) ∧
      (0 < s.size → s.start + s.size < U32 →
        s.end_index_ods = .ok (s.start + s.size)) := by
  intro s _ _
  refine ⟨fun h0 => ?_, fun hpos hov => ?_, fun hpos hlt => ?_⟩
  · simp [SpanSequence.end_index_ods, h0]
  · simp [SpanSequence.end_index_ods, Nat.pos_iff_ne_zero.mp hpos, hov]
  · simp [SpanSequence.end_index_ods, Nat.pos_iff_ne_zero.mp hpos,
      Nat.not_le.mpr hlt]

/-- Witness for C6: concrete evaluations of the three branches. -/
theorem C6_end_index_ods_spec_witness :
    SpanSequence.end_index_ods ⟨1, 2, 0⟩ = .error (.EmptySpanSequence ⟨1, 2, 0⟩) ∧
    SpanSequence.end_index_ods ⟨1, U32 - 1, 5⟩
      = .error (.SpanSequenceOverflow ⟨1, U32 - 1, 5⟩) ∧
    SpanSequence.end_index_ods ⟨1, 2, 3⟩ = .ok 5 :=
  ⟨(C6_end_index_ods_spec ⟨1, 2, 0⟩ (by decide) (by decide)).1 rfl,
   (C6_end_index_ods_spec ⟨1, U32 - 1, 5⟩ (by decide) (by decide)).2.1
     (by decide) (by decide),
   (C6_end_index_ods_spec ⟨1, 2, 3⟩ (by decide) (by decide)).2.2
     (by decide) (by decide)⟩

/-- C3, counterexample: for the row proof with `total = 262144 = 2 ^ 18`
(divisible by 4, derived width `2 ^ 16`) and the span `(1, 0, 1)`
(`end_index_ods = 1`), the claim's pure value `ods_size = ods_width² = 2 ^ 32`
satisfies `end_index_ods ≤ ods_size`, so the claim demands `Ok`; the source's
`u32` product wraps to 0 and the function returns the out-of-bounds fraud
outcome `ShareIndexOutOfBounds 1 0` instead. -/
theorem C3_counterexample_u32_square_wraps :
    verify_span_sequence_inclusion ⟨1, 0, 1⟩ ⟨262144, 0, []⟩
        = .error (.Fraud (.ShareIndexOutOfBounds 1 0)) ∧
      (262144 : Nat) % 4 = 0 ∧
      SpanSequence.end_index_ods ⟨1, 0, 1⟩ = .ok 1 ∧
      1 ≤ spec_ods_size 262144 := by
  exact ⟨rfl, by decide, rfl, by decide⟩

/-- C3 as amended: with `ods_width = (row_proof.total / 4) as u32` and
`ods_size = ods_width * ods_width` computed in `u32` (i.e. modulo `2 ^ 32`,
`ods_size_u32`), `verify_span_sequence_inclusion` returns the
`InvalidNumberOfLeavesInProof` input error when `total` is not divisible by 4;
otherwise it propagates the empty-span/overflow errors of `end_index_ods`,
returns the out-of-bounds fraud outcome exactly when
`end_index_ods(span) > ods_size`, and returns `Ok` when
`end_index_ods(span) ≤ ods_size`. -/
theorem C3_span_inclusion_spec :
    ∀ (s : SpanSequence) (rp : MerkleProof),
      (rp.total % 4 ≠ 0 →
        verify_span_sequence_inclusion s rp
          = .error (.Input .InvalidNumberOfLeavesInProof)) ∧
      (rp.total % 4 = 0 →
        (∀ f, s.end_index_ods = .error f →
          verify_span_sequence_inclusion s rp = .error (.Fraud f)) ∧
        (∀ n, s.end_index_ods = .ok n →
          (ods_size_u32 rp.total < n →
            verify_span_sequence_inclusion s rp
              = .error (.Fraud (.ShareIndexOutOfBounds n (ods_size_u32 rp.total)))) ∧
          (n ≤ ods_size_u32 rp.total →
            verify_span_sequence_inclusion s rp = .ok ()))) := by
  intro s rp
  constructor
  · intro hbad
    simp [verify_span_sequence_inclusion, compute_ods_width_from_row_proof, hbad]
  · intro hdiv
    have hw : compute_ods_width_from_row_proof rp = .ok ((rp.total / 4) % U32) := by
      simp [compute_ods_width_from_row_proof, hdiv]
    constructor
    · intro f hf
      simp [verify_span_sequence_inclusion, hw, hf]
    · intro n hn
      have hred : verify_span_sequence_inclusion s rp
          = if ods_size_u32 rp.total < n then
              .error (.Fraud (.ShareIndexOutOfBounds n (ods_size_u32 rp.total)))
            else
              .ok () := by
        simp [verify_span_sequence_inclusion, hw, hn, ods_size_u32]
      constructor
      · intro hgt
        rw [hred, if_pos hgt]
      · intro hle
        rw [hred, if_neg (Nat.not_lt.mpr hle)]

/-- Witness for C3: the input-error branch at `total = 5`, error propagation
for an empty span, the fraud branch, and the `Ok` branch, each at concrete
inputs. -/
theorem C3_span_inclusion_spec_witness :
    verify_span_sequence_inclusion ⟨1, 0, 1⟩ ⟨5, 0, []⟩
        = .error (.Input .InvalidNumberOfLeavesInProof) ∧
      verify_span_sequence_inclusion ⟨1, 0, 0⟩ ⟨16, 0, []⟩
        = .error (.Fraud (.EmptySpanSequence ⟨1, 0, 0⟩)) ∧
      verify_span_sequence_inclusion ⟨1, 16, 1⟩ ⟨16, 0, []⟩
        = .error (.Fraud (.ShareIndexOutOfBounds 17 16)) ∧
      verify_span_sequence_inclusion ⟨1, 0, 16⟩ ⟨16, 0, []⟩ = .ok () :=
  ⟨(C3_span_inclusion_spec ⟨1, 0, 1⟩ ⟨5, 0, []⟩).1 (by decide),
   ((C3_span_inclusion_spec ⟨1, 0, 0⟩ ⟨16, 0, []⟩).2 (by decide)).1
     (.EmptySpanSequence ⟨1, 0, 0⟩) rfl,
   (((C3_span_inclusion_spec ⟨1, 16, 1⟩ ⟨16, 0, []⟩).2 (by decide)).2 17
     rfl).1 (by decide),
   (((C3_span_inclusion_spec ⟨1, 0, 16⟩ ⟨16, 0, []⟩).2 (by decide)).2 16
     rfl).2 (by decide)⟩

/-- C8 (code-bug evidence): the journal type of `toolkit/src/journal.rs` has
three more ABI components than the value `main` actually constructs — the
struct literal in `main` omits the required `indexBlob` span descriptor
entirely, so the committed journal cannot be the claimed encoding of
(commitment, bridge address, index-blob span). -/
theorem C8_main_journal_misses_index_blob_fields :
    (Journal.abiFields ⟨0, 0, ⟨0, 0, 0⟩⟩).length
      = (GuestJournal.abiFields ⟨0, 0⟩).length + 3 := by
  rfl

/-- C7: on inputs where it succeeds, `verify_share_proofs` has visited every
ODS share index in `[span.start, end_index_ods(span))` and found for each a
share inclusion proof that verifies against `attestation.data_root` and whose
declared ODS start index (`share_proof_start_index_ods`) equals that very
index; and it propagates the empty-span/overflow errors of `end_index_ods`. -/
theorem C7_verify_share_proofs_spec :
    ∀ (w : World) (s : SpanSequence) (att : BlobstreamAttestation)
      (pd : BlobProofData),
      (∀ f, s.end_index_ods = .error f →
        verify_share_proofs w s att pd = .err (.Fraud f)) ∧
      (∀ e, s.end_index_ods = .ok e →
        (verify_share_proofs w s att pd = .ok () ↔
          ∀ i, s.start ≤ i → i < e →
            ∃ sp, lookupShare pd i = some sp ∧
              w.shareProofValid sp att.data_root = true ∧
              share_proof_start_index_ods sp = i)) := by
  intro w s att pd
  constructor
  · intro f hf
    simp [verify_share_proofs, hf]
  · intro e he
    have hb := end_index_ods_ok_bounds he
    simp only [verify_share_proofs, he]
    rw [verify_shares_loop_ok_iff]
    constructor
    · intro h i h1 h2
      exact h i h1 (by omega)
    · intro h i h1 h2
      exact h i h1 (by omega)

/-- Witness for C7: error propagation on an empty span, and a successful run
over the singleton range covered by `ibd5`. -/
theorem C7_verify_share_proofs_spec_witness :
    verify_share_proofs w1 ⟨3, 0, 0⟩ first1 ibd5
        = .err (.Fraud (.EmptySpanSequence ⟨3, 0, 0⟩)) ∧
      verify_share_proofs w1 ⟨3, 0, 1⟩ first1 ibd5 = .ok () :=
  ⟨(C7_verify_share_proofs_spec w1 ⟨3, 0, 0⟩ first1 ibd5).1
     (.EmptySpanSequence ⟨3, 0, 0⟩) rfl,
   ((C7_verify_share_proofs_spec w1 ⟨3, 0, 1⟩ first1 ibd5).2 1 rfl).mpr
     (by
       intro i h1 h2
       have hi : i = 0 := by omega
       subst hi
       exact ⟨sp0, rfl, rfl, rfl⟩)⟩

/-- C9: missing proof entries abort the guest rather than producing a result:
a self-challenge bundle that passes the first-attestation and height-bound
checks but lacks a `block_proofs` entry at the index blob's height makes
`check_da_challenge` panic, and `verify_share_proofs` panics whenever
`share_proofs` lacks an entry for some index of the span's range. -/
theorem C9_missing_proof_entries_panic :
    ∀ (w : World) (d : DaChallengeGuestData),
      (d.challenged_blob = d.index_blob →
        verify_block_proofs w d.block_proofs = .ok () →
        check_block_height_bounds w d.index_blob d.first_blobstream_attestation
          = .ok () →
        lookupBlockProof d.block_proofs d.index_blob.height = none →
        check_da_challenge w d = .panic) ∧
      (∀ (s : SpanSequence) (att : BlobstreamAttestation) (pd : BlobProofData)
        (e i : Nat),
        s.end_index_ods = .ok e → s.start ≤ i → i < e →
        lookupShare pd i = none →
        verify_share_proofs w s att pd = .panic) := by
  intro w d
  constructor
  · intro hself hvb hbounds hlk
    simp only [check_da_challenge, hvb, if_pos hself, check_blob_exclusion,
      hbounds, hlk]
  · intro s att pd e i he h1 h2 hlk
    have hb := end_index_ods_ok_bounds he
    simp only [verify_share_proofs, he]
    rcases verify_shares_loop_ok_or_panic w att pd (e - s.start) s.start with
      hok | hp
    · exfalso
      obtain ⟨sp, hsp, -, -⟩ :=
        (verify_shares_loop_ok_iff w att pd (e - s.start) s.start).mp hok i h1
          (by omega)
      rw [hlk] at hsp
      cases hsp
    · exact hp

/-- For a self-challenge bundle, `check_da_challenge` is the block-proof
authenticity loop followed by the exclusion step on the index blob. -/
lemma check_da_challenge_self (w : World) (d : DaChallengeGuestData)
    (h : d.challenged_blob = d.index_blob) :
    check_da_challenge w d
      = match verify_block_proofs w d.block_proofs with
        | .ok _ => check_blob_exclusion w d.first_blobstream_attestation
            d.block_proofs d.index_blob d.index_blob
        | .err e => .err e
        | .panic => .panic := by
  unfold check_da_challenge
  cases verify_block_proofs w d.block_proofs with
  | ok a =>
    cases a
    dsimp only
    rw [if_pos h]
  | err e => rfl
  | panic => rfl

/-- The linear scan over the index blobs: an absent challenged blob is the
`ChallengedBlobNotInIndex` input error; a present one is handled by the
exclusion step on the challenged blob itself. -/
lemma scan_index_blobs_spec (w : World) (first : BlobstreamAttestation)
    (bps : List (Nat × BlockProof)) (c : SpanSequence) :
    ∀ blobs : List SpanSequence,
      (c ∉ blobs → scan_index_blobs w first bps c blobs
        = .err (.Input .ChallengedBlobNotInIndex)) ∧
      (c ∈ blobs → scan_index_blobs w first bps c blobs
        = check_blob_exclusion w first bps c c) := by
  intro blobs
  induction blobs with
  | nil =>
    refine ⟨fun _ => rfl, fun h => absurd h ?_⟩
    simp
  | cons b rest ih =>
    constructor
    · intro hnm
      rw [List.mem_cons] at hnm
      push_neg at hnm
      simp only [scan_index_blobs]
      rw [if_neg hnm.1]
      exact ih.1 hnm.2
    · intro hm
      simp only [scan_index_blobs]
      by_cases he : c = b
      · rw [if_pos he]
        subst he
        rfl
      · rw [if_neg he]
        rw [List.mem_cons] at hm
        exact ih.2 (hm.resolve_left he)

/-- For a non-self challenge that gets past the share-proof verification of
the index blob, `check_da_challenge` is decided by the index reconstruction
followed by the scan of the reconstructed blobs. -/
lemma check_da_challenge_nonself (w : World) (d : DaChallengeGuestData)
    (ibd : BlobProofData) (bp : BlockProof)
    (hne : ¬ d.challenged_blob = d.index_blob)
    (hpd : d.index_blob_proof_data = some ibd)
    (hvb : verify_block_proofs w d.block_proofs = .ok ())
    (hlk : lookupBlockProof d.block_proofs d.index_blob.height = some bp)
    (hsh : verify_share_proofs w d.index_blob bp.blobstream_attestation ibd
      = .ok ())
    (hav : w.appVersionValid ibd.app_version = true) :
    check_da_challenge w d
      = match BlobIndex.reconstruct_from_raw w ibd.shares ibd.app_version with
        | .error f => .err (.Fraud f)
        | .ok idx => scan_index_blobs w d.first_blobstream_attestation
            d.block_proofs d.challenged_blob idx.blobs := by
  simp only [check_da_challenge, hvb, if_neg hne, hpd, hlk, hsh, hav, if_true]

/-- C4: a failed index reconstruction — whether `Blob::reconstruct` fails on
the shares or `bincode` fails on the payload — is reported as the
corresponding index-unreadable `DaFraud` variant, never an `InputError`; and
in the engine that fraud outcome is returned for every bundle reaching the
reconstruction step, with no height-bound check involved. -/
theorem C4_index_unreadable_is_fraud :
    ∀ w : World,
      (∀ (raw : List Nat) (v e : Nat),
        (w.blobReconstruct raw v = .error e →
          BlobIndex.reconstruct_from_raw w raw v
            = .error (.FailedIndexBlobReconstruction e)) ∧
        (∀ data, w.blobReconstruct raw v = .ok data →
          w.deserializeIndex data = .error e →
          BlobIndex.reconstruct_from_raw w raw v
            = .error (.FailedIndexBlobDeserialization e))) ∧
      (∀ (d : DaChallengeGuestData) (ibd : BlobProofData) (bp : BlockProof)
        (f : DaFraud),
        ¬ d.challenged_blob = d.index_blob →
        d.index_blob_proof_data = some ibd →
        verify_block_proofs w d.block_proofs = .ok () →
        lookupBlockProof d.block_proofs d.index_blob.height = some bp →
        verify_share_proofs w d.index_blob bp.blobstream_attestation ibd
          = .ok () →
        w.appVersionValid ibd.app_version = true →
        BlobIndex.reconstruct_from_raw w ibd.shares ibd.app_version = .error f →
        check_da_challenge w d = .err (.Fraud f)) := by
  intro w
  constructor
  · intro raw v e
    constructor
    · intro h
      simp [BlobIndex.reconstruct_from_raw, h]
    · intro data h1 h2
      simp [BlobIndex.reconstruct_from_raw, h1, h2]
  · intro d ibd bp f hne hpd hvb hlk hsh hav hrec
    rw [check_da_challenge_nonself w d ibd bp hne hpd hvb hlk hsh hav, hrec]

/-- Witness for C4: a failing `Blob::reconstruct` (`w3`), a failing
`bincode::deserialize` (`w4`), and the full engine returning the
reconstruction fraud outcome on the concrete bundle `d5`. -/
theorem C4_index_unreadable_is_fraud_witness :
    BlobIndex.reconstruct_from_raw w3 [7] 1
        = .error (.FailedIndexBlobReconstruction 0) ∧
      BlobIndex.reconstruct_from_raw w4 [7] 1
        = .error (.FailedIndexBlobDeserialization 2) ∧
      check_da_challenge w3 d5
        = .err (.Fraud (.FailedIndexBlobReconstruction 0)) :=
  ⟨((C4_index_unreadable_is_fraud w3).1 [7] 1 0).1 rfl,
   ((C4_index_unreadable_is_fraud w4).1 [7] 1 2).2 [] rfl rfl,
   (C4_index_unreadable_is_fraud w3).2 d5 ibd5 bp5
     (.FailedIndexBlobReconstruction 0) (by decide) rfl rfl rfl rfl rfl rfl⟩

/-- C5: when a non-self challenge reconstructs its index successfully, a
challenged blob structurally equal to no index entry yields the
`ChallengedBlobNotInIndex` input error (never a fraud outcome), and a
challenged blob equal to some entry proceeds to the height-bound/inclusion
check on that blob. -/
theorem C5_absent_blob_is_input_error :
    ∀ (w : World) (d : DaChallengeGuestData) (ibd : BlobProofData)
      (bp : BlockProof) (idx : BlobIndex),
      ¬ d.challenged_blob = d.index_blob →
      d.index_blob_proof_data = some ibd →
      verify_block_proofs w d.block_proofs = .ok () →
      lookupBlockProof d.block_proofs d.index_blob.height = some bp →
      verify_share_proofs w d.index_blob bp.blobstream_attestation ibd
        = .ok () →
      w.appVersionValid ibd.app_version = true →
      BlobIndex.reconstruct_from_raw w ibd.shares ibd.app_version = .ok idx →
      (d.challenged_blob ∉ idx.blobs →
        check_da_challenge w d = .err (.Input .ChallengedBlobNotInIndex)) ∧
      (d.challenged_blob ∈ idx.blobs →
        check_da_challenge w d
          = check_blob_exclusion w d.first_blobstream_attestation
              d.block_proofs d.challenged_blob d.challenged_blob) := by
  intro w d ibd bp idx hne hpd hvb hlk hsh hav hrec
  rw [check_da_challenge_nonself w d ibd bp hne hpd hvb hlk hsh hav, hrec]
  exact scan_index_blobs_spec w d.first_blobstream_attestation d.block_proofs
    d.challenged_blob idx.blobs

/-- Witness for C5: on the concrete bundle `d5`, an index not listing the
challenged blob (`w1`) gives the input error, and an index listing it (`w2`)
proceeds to the exclusion check of the challenged blob. -/
theorem C5_absent_blob_is_input_error_witness :
    check_da_challenge w1 d5 = .err (.Input .ChallengedBlobNotInIndex) ∧
      check_da_challenge w2 d5
        = check_blob_exclusion w2 d5.first_blobstream_attestation
            d5.block_proofs d5.challenged_blob d5.challenged_blob :=
  ⟨(C5_absent_blob_is_input_error w1 d5 ibd5 bp5 ⟨[]⟩ (by decide) rfl rfl rfl
      rfl rfl rfl).1 (by decide),
   (C5_absent_blob_is_input_error w2 d5 ibd5 bp5 ⟨[⟨4, 0, 1⟩]⟩ (by decide) rfl
      rfl rfl rfl rfl rfl).2 (by decide)⟩

/-- C10: in the self-challenge case the verdict never depends on
`index_blob_proof_data` — two bundles identical except in that field produce
the same result. -/
theorem C10_self_challenge_ignores_index_proof_data :
    ∀ (w : World) (d : DaChallengeGuestData) (p1 p2 : Option BlobProofData),
      d.challenged_blob = d.index_blob →
      check_da_challenge w { d with index_blob_proof_data := p1 }
        = check_da_challenge w { d with index_blob_proof_data := p2 } := by
  intro w d p1 p2 h
  rw [check_da_challenge_self w { d with index_blob_proof_data := p1 } h,
    check_da_challenge_self w { d with index_blob_proof_data := p2 } h]

/-- Witness for C10: the self-challenge bundle `d9` gives the same result with
no index proof data and with `ibd5`. -/
theorem C10_self_challenge_ignores_index_proof_data_witness :
    check_da_challenge w1 { d9 with index_blob_proof_data := none }
      = check_da_challenge w1 { d9 with index_blob_proof_data := some ibd5 } :=
  C10_self_challenge_ignores_index_proof_data w1 d9 none (some ibd5) rfl

/-- Witness for C9: the concrete self-challenge bundle `d9` (no block proof at
height 3) panics, and a share-proof map with no entries panics on the span
`(3, 0, 2)`. -/
theorem C9_missing_proof_entries_panic_witness :
    check_da_challenge w1 d9 = .panic ∧
      verify_share_proofs w1 ⟨3, 0, 2⟩ first1 ⟨[], 1⟩ = .panic :=
  ⟨(C9_missing_proof_entries_panic w1 d9).1 rfl rfl rfl rfl,
   (C9_missing_proof_entries_panic w1 d9).2 ⟨3, 0, 2⟩ first1 ⟨[], 1⟩ 2 0 rfl
     (by decide) (by decide) rfl⟩

end DaChallenge
